import Mathlib

/-!
Verification of the VoiceMaster private-voice-room subsystem.

The definitions below are a shallow embedding of the TypeScript source:
the voice-state watcher (`voiceStateUpdate` event handler with its
`createPrivateRoom`, `handleVoiceJoin`, `handleVoiceLeave`,
`cancelRoomDeletion` members), the room-control buttons and commands
(`Lock`, `Claim`, `Increase`, `Decrease`, `vcreject`), the registry
helpers of `models/Room` (mongoose `findOneAndUpdate` patch semantics),
and the startup sweep `cleanupVoiceMasterRooms` of the `ready` event.
External collaborators (the Discord gateway, the document store) are
modelled by explicit environment records carrying the result of each
external call, so every code branch is represented by a branch of a
total Lean function.
-/

namespace VoiceMaster

/-- Result of a single external API call that can fail in the ways the
source distinguishes by inspecting the error message. -/
inductive ApiResult
  | ok
  | missingPermissions
  | rateLimited
  | otherError
deriving DecidableEq, Repr

/-- Result of fetching the configured category in `createPrivateRoom`:
the fetch can throw, return null, return a non-category channel, or
return a proper category. -/
inductive CategoryFetch
  | fetchError
  | missing
  | wrongType
  | category
deriving DecidableEq, Repr

/-- Environment of one `createPrivateRoom` invocation: the outcome of
every external call the function makes, in source order. -/
structure ProvisionEnv where
  dbConnected : Bool
  lobbyConfig : Bool
  categoryFetch : CategoryFetch
  botMemberFound : Bool
  botManageChannels : Bool
  botConnect : Bool
  botMoveMembers : Bool
  createResult : ApiResult
  moveOk : Bool
  dbWriteOk : Bool
deriving DecidableEq, Repr

/-- Where the joining member ends up after `createPrivateRoom`. -/
inductive MemberLoc
  | lobby
  | newRoom
  | disconnected
deriving DecidableEq, Repr

/-- The disconnect reasons used by `createPrivateRoom`, one constructor
per distinct reason string in the source. -/
inductive DisconnectReason
  | dbNotConnected
  | categoryNotFound
  | invalidCategory
  | botError
  | botLacksPermissions
  | createMissingPermissions
  | createRateLimited
  | createFailed
  | moveFailed
  | dbSaveFailed
deriving DecidableEq, Repr

/-- Observable outcome of one `createPrivateRoom` invocation: whether
the new channel exists afterwards, whether the Room row exists, where
the member is, and the disconnect reason if any. -/
structure ProvisionOutcome where
  channelExists : Bool
  roomRowExists : Bool
  memberLoc : MemberLoc
  reason : Option DisconnectReason
deriving DecidableEq, Repr

/-- Shallow embedding of `createPrivateRoom`
(src/events/client/interactionCreate.ts, `VoiceStateUpdateEvent`).
Branches follow the source in order: database connectivity check,
re-fetch of the voice-creator config (silent return when absent),
category fetch and type validation, bot member fetch, bot permission
check on the category, channel creation, member move (compensating
channel delete plus disconnect on failure), and registry write
(compensating channel delete plus disconnect on failure). -/
def createPrivateRoom (e : ProvisionEnv) : ProvisionOutcome :=
  if !e.dbConnected then
    ⟨false, false, .disconnected, some .dbNotConnected⟩
  else if !e.lobbyConfig then
    ⟨false, false, .lobby, none⟩
  else
    match e.categoryFetch with
    | .fetchError => ⟨false, false, .disconnected, some .categoryNotFound⟩
    | .missing => ⟨false, false, .disconnected, some .invalidCategory⟩
    | .wrongType => ⟨false, false, .disconnected, some .invalidCategory⟩
    | .category =>
      if !e.botMemberFound then
        ⟨false, false, .disconnected, some .botError⟩
      else if !(e.botManageChannels && e.botConnect && e.botMoveMembers) then
        ⟨false, false, .disconnected, some .botLacksPermissions⟩
      else
        match e.createResult with
        | .missingPermissions => ⟨false, false, .disconnected, some .createMissingPermissions⟩
        | .rateLimited => ⟨false, false, .disconnected, some .createRateLimited⟩
        | .otherError => ⟨false, false, .disconnected, some .createFailed⟩
        | .ok =>
          if !e.moveOk then
            ⟨false, false, .disconnected, some .moveFailed⟩
          else if !e.dbWriteOk then
            ⟨false, false, .disconnected, some .dbSaveFailed⟩
          else
            ⟨true, true, .newRoom, none⟩

/-- The provisioning preconditions named by the spec: lobby config
present, category resolves to a real category, and the bot holds the
three capabilities on it. -/
def provisionPreconditionUnmet (e : ProvisionEnv) : Prop :=
  e.lobbyConfig = false ∨ e.categoryFetch ≠ CategoryFetch.category ∨
    e.botManageChannels = false ∨ e.botConnect = false ∨ e.botMoveMembers = false

/-- Claim C7 as stated: every member who joins the lobby while any
provisioning precondition is unmet is disconnected with a descriptive
reason. -/
def provisionAlwaysDisconnectsOnUnmetPrecondition : Prop :=
  ∀ e : ProvisionEnv, provisionPreconditionUnmet e →
    (createPrivateRoom e).memberLoc = MemberLoc.disconnected ∧
      (createPrivateRoom e).reason ≠ none

/-- Concrete environment for the C7 counterexample: the database is up
but the voice-creator config row is missing at re-fetch time; every
other external call would succeed. -/
def envNoLobbyConfig : ProvisionEnv :=
  ⟨true, false, .category, true, true, true, true, .ok, true, true⟩

/-- A Room registry row (mongoose `RoomSchema` of models/Room):
channel id, guild id, owner id, the two mirrored flags, and the
optional capacity. -/
structure Room where
  channelId : Nat
  guildId : Nat
  ownerId : Nat
  locked : Bool
  hidden : Bool
  limit : Option Nat
deriving DecidableEq, Repr

/-- `getRoom(channelId)`: point lookup in the registry. -/
def findRoom (rooms : List Room) (c : Nat) : Option Room :=
  rooms.find? (fun r => r.channelId == c)

/-- Fetch a voice channel by id: the member list if the channel exists. -/
def lookupChannel (channels : List (Nat × List Nat)) (c : Nat) : Option (List Nat) :=
  (channels.find? (fun p => p.1 == c)).map Prod.snd

/-- The shared state the voice-state handler operates on: the guild's
voice channels with their member lists, the Room registry, and the keys
of the `deletionTimeouts` map (channels with a pending deletion timer). -/
structure World where
  channels : List (Nat × List Nat)
  rooms : List Room
  pending : List Nat
deriving DecidableEq, Repr

/-- `cancelRoomDeletion(channelId)`: clear and drop the pending
deletion timer keyed by the channel id, if present. -/
def cancelRoomDeletion (st : World) (c : Nat) : World :=
  { st with pending := st.pending.filter (fun x => x != c) }

/-- What `handleVoiceJoin` did to the joining member. -/
inductive JoinAction
  | provision
  | disconnectLocked
  | stay
  | noAction
deriving DecidableEq, Repr

/-- Shallow embedding of `handleVoiceJoin`: return without action when
the guild has no voice-creator config; provision when the joined
channel is the configured lobby; otherwise, when the channel has a Room
row, cancel any pending deletion and apply the lock gate (owner passes,
then effective Connect permission decides); no gate action when the
room is not locked. `effConnect` is the joining member's effective
Connect permission on the channel as resolved by the platform. -/
def handleVoiceJoin (st : World) (c m : Nat) (lobbyConfig : Option Nat)
    (effConnect : Bool) : World × JoinAction :=
  match lobbyConfig with
  | none => (st, .noAction)
  | some lobbyId =>
    if lobbyId = c then (st, .provision)
    else
      match findRoom st.rooms c with
      | none => (st, .noAction)
      | some room =>
        let st1 := cancelRoomDeletion st c
        if room.locked then
          if m = room.ownerId then (st1, .stay)
          else if effConnect then (st1, .stay)
          else (st1, .disconnectLocked)
        else (st1, .noAction)

/-- Result of re-fetching the room channel inside the reaper. -/
inductive ChannelFetch
  | missing
  | notVoice
  | voice (memberCount : Nat)
deriving DecidableEq, Repr

/-- Outcome of the bot-side external calls made by the deletion timer:
whether the bot member resolves, whether it holds ManageChannels on the
channel, and how the channel delete call ends. -/
structure BotEnv where
  botMemberFound : Bool
  botManageChannels : Bool
  deleteResult : ApiResult
deriving DecidableEq, Repr

/-- What the deletion-timer body decided to remove: the external
channel (by a successful delete call of its own) and/or the Room row. -/
structure FireDecision where
  deleteChannel : Bool
  deleteRow : Bool
deriving DecidableEq, Repr

/-- Shallow embedding of the 15-second deletion timer body inside
`handleVoiceLeave`: re-fetch guild and channel (cleaning up the row
when either is gone or the channel is not voice), re-fetch the Room row
(aborting when it is gone), re-verify emptiness, then check the bot
member and its ManageChannels permission, delete the channel, and
delete the row. A rate-limited delete returns before the registry
delete; a Missing Permissions failure (either detected up front or
raised by the delete call) still deletes the row. -/
def deletionTimerDecision (guildExists : Bool) (ch : ChannelFetch)
    (roomExists : Bool) (bot : BotEnv) : FireDecision :=
  if !guildExists then ⟨false, true⟩
  else
    match ch with
    | .missing => ⟨false, true⟩
    | .notVoice => ⟨false, true⟩
    | .voice n =>
      if !roomExists then ⟨false, false⟩
      else if n = 0 then
        if !bot.botMemberFound then ⟨false, false⟩
        else if !bot.botManageChannels then ⟨false, true⟩
        else
          match bot.deleteResult with
          | .ok => ⟨true, true⟩
          | .missingPermissions => ⟨false, true⟩
          | .rateLimited => ⟨false, false⟩
          | .otherError => ⟨false, true⟩
      else ⟨false, false⟩

/-- The channel fetch result the timer body observes in a world where
the guild resolves and every listed channel is a voice channel. -/
def channelFetchOf (st : World) (c : Nat) : ChannelFetch :=
  match lookupChannel st.channels c with
  | none => .missing
  | some ms => .voice ms.length

/-- Apply a timer decision to the world; the timer handle is removed
from the `deletionTimeouts` map first, as in the source. -/
def applyFireDecision (st : World) (c : Nat) (d : FireDecision) : World :=
  { channels := if d.deleteChannel then st.channels.filter (fun p => p.1 != c) else st.channels,
    rooms := if d.deleteRow then st.rooms.filter (fun r => r.channelId != c) else st.rooms,
    pending := st.pending.filter (fun x => x != c) }

/-- The deletion timer firing for channel `c` in world `st`. -/
def deletionTimerFire (st : World) (c : Nat) (bot : BotEnv) : World :=
  applyFireDecision st c
    (deletionTimerDecision true (channelFetchOf st c) (findRoom st.rooms c).isSome bot)

/-- Shallow embedding of the 1-second settle check inside
`handleVoiceLeave`: re-fetch the channel (cleaning up the Room row when
it is gone), re-fetch the Room row (aborting when gone), and when the
channel is empty cancel any existing timer and schedule the deletion
timer keyed by the channel id. -/
def handleVoiceLeaveSettle (st : World) (c : Nat) : World :=
  match lookupChannel st.channels c with
  | none => { st with rooms := st.rooms.filter (fun r => r.channelId != c) }
  | some ms =>
    match findRoom st.rooms c with
    | none => st
    | some _ =>
      if ms.isEmpty then
        let st1 := cancelRoomDeletion st c
        { st1 with pending := c :: st1.pending }
      else st

/-- The two per-channel handlers a voice-state update can invoke. -/
inductive VoiceEvent
  | joinHandled (c : Nat)
  | leaveHandled (c : Nat)
deriving DecidableEq, Repr

/-- Shallow embedding of `VoiceStateUpdateEvent.execute` dispatch: the
three independent conditions over the previous and next channel (join
on none to some, leave on some to none, and switch on distinct some to
some, handled as leave then join). -/
def voiceStateDispatch (oldChannel newChannel : Option Nat) : List VoiceEvent :=
  (match oldChannel, newChannel with
   | none, some c => [VoiceEvent.joinHandled c]
   | _, _ => []) ++
  (match oldChannel, newChannel with
   | some c, none => [VoiceEvent.leaveHandled c]
   | _, _ => []) ++
  (match oldChannel, newChannel with
   | some c1, some c2 =>
     if c1 ≠ c2 then [VoiceEvent.leaveHandled c1, VoiceEvent.joinHandled c2] else []
   | _, _ => [])

/-- A mongoose partial update as passed to `updateRoom`: only the
fields present in the update object are set; absent fields keep their
stored value (a plain-object update is a field-wise set, and the
helpers never unset a field). -/
structure RoomPatch where
  ownerId : Option Nat
  locked : Option Bool
  hidden : Option Bool
  limit : Option Nat
deriving DecidableEq, Repr

/-- `updateRoom(channelId, data)` = `findOneAndUpdate({channelId},
data)`: apply the partial update to the row. -/
def applyRoomPatch (r : Room) (p : RoomPatch) : Room :=
  { r with
    ownerId := p.ownerId.getD r.ownerId,
    locked := p.locked.getD r.locked,
    hidden := p.hidden.getD r.hidden,
    limit := match p.limit with | some v => some v | none => r.limit }

/-- The slice of a voice channel's state the control surface touches:
the member list, the user limit (`voice.userLimit || 0`, so 0 when
unset), the Connect overwrite for the everyone role, and member-scoped
Connect overwrites. -/
structure VoiceCh where
  id : Nat
  members : List Nat
  userLimit : Nat
  everyoneConnect : Option Bool
  memberConnect : List (Nat × Bool)
deriving DecidableEq, Repr

/-- The user-visible replies of the embedded control operations, one
constructor per distinct reply in the source. -/
inductive Reply
  | notOwner
  | ownerInRoom
  | claimed
  | lockedRoom
  | maxReached
  | minReached
  | increased (n : Nat)
  | decreased (n : Nat)
  | userRejected
  | rejectFailed
deriving DecidableEq, Repr

/-- Result of a control-surface button invocation: the channel and the
Room row afterwards, and the reply sent. -/
structure BtnOut where
  channel : VoiceCh
  room : Room
  reply : Reply
deriving DecidableEq, Repr

/-- Shallow embedding of `LockButton.execute`: the guard chain (guild,
caller in a voice channel, Room row for it) returns silently; a caller
other than the row's owner is rejected without any mutation; for the
owner the everyone Connect overwrite is set to deny and the row is
patched with locked set to true. -/
def lockButton (inGuild : Bool) (voice : Option VoiceCh) (room : Option Room)
    (callerId : Nat) : Option BtnOut :=
  if !inGuild then none
  else
    match voice with
    | none => none
    | some ch =>
      match room with
      | none => none
      | some r =>
        if r.ownerId != callerId then some ⟨ch, r, .notOwner⟩
        else
          some ⟨{ ch with everyoneConnect := some false },
            applyRoomPatch r ⟨none, some true, none, none⟩, .lockedRoom⟩

/-- Shallow embedding of `ClaimButton.execute`: the guard chain returns
silently; when the current owner is among the channel's members the
invocation is rejected with a conflict reply and the row is unchanged;
otherwise the row's ownerId is patched to the caller. -/
def claimButton (inGuild : Bool) (voice : Option VoiceCh) (room : Option Room)
    (callerId : Nat) : Option (Room × Reply) :=
  if !inGuild then none
  else
    match voice with
    | none => none
    | some ch =>
      match room with
      | none => none
      | some r =>
        if ch.members.contains r.ownerId then some (r, .ownerInRoom)
        else some (applyRoomPatch r ⟨some callerId, none, none, none⟩, .claimed)

/-- Shallow embedding of `IncreaseButton.execute`: non-owners are
rejected; at a current user limit of 99 or more the invocation is
rejected with the maximum-reached reply and nothing changes; otherwise
the channel limit becomes current + 1 and the row is patched with that
limit. -/
def increaseButton (inGuild : Bool) (voice : Option VoiceCh) (room : Option Room)
    (callerId : Nat) : Option BtnOut :=
  if !inGuild then none
  else
    match voice with
    | none => none
    | some ch =>
      match room with
      | none => none
      | some r =>
        if r.ownerId != callerId then some ⟨ch, r, .notOwner⟩
        else
          if 99 ≤ ch.userLimit then some ⟨ch, r, .maxReached⟩
          else
            some ⟨{ ch with userLimit := ch.userLimit + 1 },
              applyRoomPatch r ⟨none, none, none, some (ch.userLimit + 1)⟩,
              .increased (ch.userLimit + 1)⟩

/-- Shallow embedding of `DecreaseButton.execute`: non-owners are
rejected; at a current user limit of 0 the invocation is rejected with
the minimum-reached reply; otherwise the channel limit becomes
`max 0 (current - 1)` and the row is patched with an update object that
contains the limit field only when the new limit is non-zero (the
conditional spread in the source), so a new limit of zero sends an
empty update. -/
def decreaseButton (inGuild : Bool) (voice : Option VoiceCh) (room : Option Room)
    (callerId : Nat) : Option BtnOut :=
  if !inGuild then none
  else
    match voice with
    | none => none
    | some ch =>
      match room with
      | none => none
      | some r =>
        if r.ownerId != callerId then some ⟨ch, r, .notOwner⟩
        else
          if ch.userLimit ≤ 0 then some ⟨ch, r, .minReached⟩
          else
            let newLimit := max 0 (ch.userLimit - 1)
            some ⟨{ ch with userLimit := newLimit },
              applyRoomPatch r
                ⟨none, none, none, if newLimit != 0 then some newLimit else none⟩,
              .decreased newLimit⟩

/-- Result of `VcRejectCommand.execute`: the caller's channel after the
overwrite edit, whether the target was disconnected, and the reply. -/
structure RejectOut where
  channel : VoiceCh
  targetDisconnected : Bool
  reply : Reply
deriving DecidableEq, Repr

/-- Set or replace a member-scoped Connect overwrite
(`permissionOverwrites.edit` for a member). -/
def setMemberConnect (l : List (Nat × Bool)) (m : Nat) (v : Bool) : List (Nat × Bool) :=
  (m, v) :: l.filter (fun p => p.1 != m)

/-- Shallow embedding of `VcRejectCommand.execute`: after the guild,
caller-in-voice and target-resolution guards it edits the target's
Connect overwrite to deny on the caller's current channel and
disconnects the target when currently in that channel. No Room row is
consulted anywhere: the command performs no ownership check of its own
(its only protection is the platform-level ManageChannels permission
requirement checked by the command dispatcher). A thrown API error
reports failure with no mutation. -/
def vcreject (inGuild : Bool) (voice : Option VoiceCh) (target : Option Nat)
    (targetChannelId : Option Nat) (apiOk : Bool) : Option RejectOut :=
  if !inGuild then none
  else
    match voice with
    | none => none
    | some ch =>
      match target with
      | none => none
      | some t =>
        if !apiOk then some ⟨ch, false, .rejectFailed⟩
        else
          some ⟨{ ch with memberConnect := setMemberConnect ch.memberConnect t false },
            targetChannelId == some ch.id, .userRejected⟩

/-- Claim C4 as stated, instantiated at the embedded `vcreject`
operation: every mutating control operation other than Claim, invoked
in a channel carrying a Room row by a caller whose id differs from the
row's ownerId, is rejected and mutates neither the external channel
state nor the Room row. -/
def ownerGateClaim : Prop :=
  ∀ (ch : VoiceCh) (r : Room) (callerId target : Nat) (tvc : Option Nat) (out : RejectOut),
    ch.id = r.channelId → r.ownerId ≠ callerId →
    vcreject true (some ch) (some target) tvc true = some out →
    out.channel = ch

/-- Claim C6's zero-as-absent conjunct as stated: whenever a decrease
makes the channel limit 0 (unlimited), the Room row stores the limit as
absent rather than 0. -/
def decreaseStoresAbsentOnZero : Prop :=
  ∀ (ch : VoiceCh) (r : Room) (callerId : Nat) (out : BtnOut),
    decreaseButton true (some ch) (some r) callerId = some out →
    out.channel.userLimit = 0 → out.room.limit = none

/-- Environment of one room's processing in the startup sweep
`cleanupVoiceMasterRooms` of the ready event: whether the guild
resolves from the cache, what the channel fetch yields, whether the bot
member resolves, the bot's ManageChannels permission on the channel,
whether the channel delete call succeeds, and whether the channel turns
out to be gone when re-fetched after a failed delete. -/
structure SweepEnv where
  guildExists : Bool
  channelFetch : ChannelFetch
  botMemberFound : Bool
  botManageChannels : Bool
  deleteOk : Bool
  channelGoneAfterFailedDelete : Bool
deriving DecidableEq, Repr

/-- What the startup sweep did to one room: whether it deleted the
external channel and whether it deleted the registry row. -/
structure CleanupOut where
  channelDeleted : Bool
  rowDeleted : Bool
deriving DecidableEq, Repr

/-- Shallow embedding of one iteration of `cleanupVoiceMasterRooms`:
delete the row when the guild no longer resolves, the channel no longer
resolves, or the channel is not a voice channel; for an empty voice
channel, skip when the bot member cannot be fetched, delete only the
row when the bot lacks ManageChannels, and otherwise delete the channel
and then the row; when the delete call fails, delete the row only if
the channel turns out to be gone; a populated channel is left
untouched. -/
def cleanupVoiceMasterRoom (e : SweepEnv) : CleanupOut :=
  if !e.guildExists then ⟨false, true⟩
  else
    match e.channelFetch with
    | .missing => ⟨false, true⟩
    | .notVoice => ⟨false, true⟩
    | .voice n =>
      if n = 0 then
        if !e.botMemberFound then ⟨false, false⟩
        else if !e.botManageChannels then ⟨false, true⟩
        else if e.deleteOk then ⟨true, true⟩
        else if e.channelGoneAfterFailedDelete then ⟨false, true⟩
        else ⟨false, false⟩
      else ⟨false, false⟩

/-- The startup sweep runs the per-room cleanup over all Room rows,
each row with its own environment. -/
def cleanupVoiceMasterRooms (rooms : List (Room × SweepEnv)) : List (Room × CleanupOut) :=
  rooms.map (fun p => (p.1, cleanupVoiceMasterRoom p.2))

end VoiceMaster

namespace VoiceMaster

/-- Claim C1: provisioning is atomic. For every environment (hence in
particular for every failure injected at the move-member step or the
registry-write step), after `createPrivateRoom` completes either the
channel exists, the Room row exists and the member is in the new
channel, or neither the channel nor the Room row exists; no state where
exactly one of the three holds. -/
theorem createPrivateRoom_atomic (e : ProvisionEnv) :
    ((createPrivateRoom e).channelExists = true ∧
      (createPrivateRoom e).roomRowExists = true ∧
      (createPrivateRoom e).memberLoc = MemberLoc.newRoom) ∨
    ((createPrivateRoom e).channelExists = false ∧
      (createPrivateRoom e).roomRowExists = false) := by
  rcases e with ⟨db, cfg, cat, bm, mc, bc, mm, cr, mv, dbw⟩
  cases db <;> cases cfg <;> cases cat <;> cases bm <;> cases mc <;> cases bc <;>
    cases mm <;> cases cr <;> cases mv <;> cases dbw <;> simp [createPrivateRoom]

/-- Witness for C1 at a concrete environment: the fully successful run
leaves the channel, the Room row, and the member in the new room. -/
theorem createPrivateRoom_atomic_witness :
    ((createPrivateRoom ⟨true, true, .category, true, true, true, true, .ok, true, true⟩).channelExists = true ∧
      (createPrivateRoom ⟨true, true, .category, true, true, true, true, .ok, true, true⟩).roomRowExists = true ∧
      (createPrivateRoom ⟨true, true, .category, true, true, true, true, .ok, true, true⟩).memberLoc = MemberLoc.newRoom) ∨
    ((createPrivateRoom ⟨true, true, .category, true, true, true, true, .ok, true, true⟩).channelExists = false ∧
      (createPrivateRoom ⟨true, true, .category, true, true, true, true, .ok, true, true⟩).roomRowExists = false) :=
  createPrivateRoom_atomic ⟨true, true, .category, true, true, true, true, .ok, true, true⟩

/-- Claim C7 counterexample: with the lobby config missing at re-fetch
time (a precondition named by the claim), `createPrivateRoom` returns
silently: the member stays in the lobby and no disconnect reason is
produced, so the claim as stated is false. -/
theorem provisionPrecondition_cex :
    ¬ provisionAlwaysDisconnectsOnUnmetPrecondition := by
  intro h
  have hx := h envNoLobbyConfig (Or.inl rfl)
  simp [createPrivateRoom, envNoLobbyConfig] at hx

/-- Claim C7 amended: when the lobby config is present but any other
provisioning precondition is unmet (database down, category fetch
failing or yielding nothing or a non-category, bot member unresolvable,
or a missing bot capability on the category), provisioning aborts with
no channel and no Room row and the joining member is disconnected with
a descriptive reason; when the lobby config itself is missing,
provisioning aborts silently and the member is left in the lobby. -/
theorem provisionPrecondition_disconnects (e : ProvisionEnv)
    (hcfg : e.lobbyConfig = true)
    (h : e.dbConnected = false ∨ e.categoryFetch ≠ CategoryFetch.category ∨
      e.botMemberFound = false ∨ e.botManageChannels = false ∨
      e.botConnect = false ∨ e.botMoveMembers = false) :
    (createPrivateRoom e).channelExists = false ∧
      (createPrivateRoom e).roomRowExists = false ∧
      (createPrivateRoom e).memberLoc = MemberLoc.disconnected ∧
      (createPrivateRoom e).reason ≠ none := by
  rcases e with ⟨db, cfg, cat, bm, mc, bc, mm, cr, mv, dbw⟩
  subst hcfg
  cases db <;> cases cat <;> cases bm <;> cases mc <;> cases bc <;> cases mm <;>
    cases cr <;> cases mv <;> cases dbw <;>
    simp_all [createPrivateRoom]

/-- Witness for the amended C7 at a concrete environment: category
fetch returns a non-category, so the member is disconnected with the
invalid-category reason. -/
theorem provisionPrecondition_disconnects_witness :
    (ProvisionEnv.mk true true .wrongType true true true true .ok true true).lobbyConfig = true ∧
      ((ProvisionEnv.mk true true .wrongType true true true true .ok true true).dbConnected = false ∨
        (ProvisionEnv.mk true true .wrongType true true true true .ok true true).categoryFetch ≠ CategoryFetch.category ∨
        (ProvisionEnv.mk true true .wrongType true true true true .ok true true).botMemberFound = false ∨
        (ProvisionEnv.mk true true .wrongType true true true true .ok true true).botManageChannels = false ∨
        (ProvisionEnv.mk true true .wrongType true true true true .ok true true).botConnect = false ∨
        (ProvisionEnv.mk true true .wrongType true true true true .ok true true).botMoveMembers = false) ∧
      (createPrivateRoom ⟨true, true, .wrongType, true, true, true, true, .ok, true, true⟩).channelExists = false ∧
      (createPrivateRoom ⟨true, true, .wrongType, true, true, true, true, .ok, true, true⟩).roomRowExists = false ∧
      (createPrivateRoom ⟨true, true, .wrongType, true, true, true, true, .ok, true, true⟩).memberLoc = MemberLoc.disconnected ∧
      (createPrivateRoom ⟨true, true, .wrongType, true, true, true, true, .ok, true, true⟩).reason ≠ none :=
  ⟨rfl, Or.inr (Or.inl (by decide)),
    provisionPrecondition_disconnects ⟨true, true, .wrongType, true, true, true, true, .ok, true, true⟩
      rfl (Or.inr (Or.inl (by decide)))⟩

end VoiceMaster

namespace VoiceMaster

/-- Erasing a channel from the channel list makes its lookup miss. -/
theorem lookupChannel_filter_self (l : List (Nat × List Nat)) (c : Nat) :
    lookupChannel (l.filter (fun p => p.1 != c)) c = none := by
  have h : (l.filter (fun p => p.1 != c)).find? (fun p => p.1 == c) = none := by
    rw [List.find?_eq_none]
    intro x hx
    rcases List.mem_filter.mp hx with ⟨_, hq⟩
    simpa using hq
  simp [lookupChannel, h]

/-- Erasing a row from the registry makes its lookup miss. -/
theorem findRoom_filter_self (l : List Room) (c : Nat) :
    findRoom (l.filter (fun r => r.channelId != c)) c = none := by
  rw [findRoom, List.find?_eq_none]
  intro x hx
  rcases List.mem_filter.mp hx with ⟨_, hq⟩
  simpa using hq

/-- When the joined channel is not the lobby and has a Room row,
`handleVoiceJoin` changes the world only by cancelling the pending
deletion timer for that channel. -/
theorem handleVoiceJoin_world (st : World) (c m lobbyId : Nat) (eff : Bool) (room : Room)
    (hl : lobbyId ≠ c) (hfind : findRoom st.rooms c = some room) :
    (handleVoiceJoin st c m (some lobbyId) eff).1 = cancelRoomDeletion st c := by
  simp only [handleVoiceJoin, hfind, if_neg hl]
  split_ifs <;> rfl

/-- A cancelled channel is no longer in the pending-timer map. -/
theorem cancelRoomDeletion_not_pending (st : World) (c : Nat) :
    c ∉ (cancelRoomDeletion st c).pending := by
  intro hmem
  rcases List.mem_filter.mp hmem with ⟨_, hq⟩
  simp at hq

end VoiceMaster

namespace VoiceMaster

/-- Claim C10: a voice-state update whose previous and next channel are
the same non-null channel (mute, deafen, stream toggles) triggers no
VoiceMaster action at all: the dispatcher invokes neither the join
handler (provisioning, access gate, timer cancellation) nor the leave
handler (reaper scheduling), because it dispatches only on none-to-X
joins, X-to-none leaves, and X-to-Y switches with X distinct from Y. -/
theorem voiceState_same_channel_noop (c : Nat) :
    voiceStateDispatch (some c) (some c) = [] := by
  simp [voiceStateDispatch]

/-- Claim C3: lock gating. For a member joining a non-lobby channel
with a Room row: when the room is locked, a non-owner without effective
Connect permission is disconnected; the owner, or any member with
effective Connect permission, stays connected; when the room is not
locked, no gate action is taken. -/
theorem lock_gating (st : World) (c m lobbyId : Nat) (room : Room) (effConnect : Bool)
    (hlobby : lobbyId ≠ c) (hroom : findRoom st.rooms c = some room) :
    (room.locked = true → m ≠ room.ownerId → effConnect = false →
      (handleVoiceJoin st c m (some lobbyId) effConnect).2 = JoinAction.disconnectLocked) ∧
    (room.locked = true → (m = room.ownerId ∨ effConnect = true) →
      (handleVoiceJoin st c m (some lobbyId) effConnect).2 = JoinAction.stay) ∧
    (room.locked = false →
      (handleVoiceJoin st c m (some lobbyId) effConnect).2 = JoinAction.noAction) := by
  refine ⟨?_, ?_, ?_⟩
  · intro hl hm he
    simp [handleVoiceJoin, if_neg hlobby, hroom, hl, hm, he]
  · intro hl hor
    rcases hor with hm | he
    · simp [handleVoiceJoin, if_neg hlobby, hroom, hl, hm]
    · by_cases hm : m = room.ownerId <;>
        simp [handleVoiceJoin, if_neg hlobby, hroom, hl, hm, he]
  · intro hl
    simp [handleVoiceJoin, if_neg hlobby, hroom, hl]

/-- Witness for C3 at a concrete world: channel 7 holds a locked room
owned by member 1; the non-owner member 2 without Connect permission is
disconnected, while the owner stays. -/
theorem lock_gating_witness :
    (9 : Nat) ≠ 7 ∧
      findRoom (World.mk [(7, [2])] [⟨7, 1, 1, true, false, none⟩] []).rooms 7 =
        some ⟨7, 1, 1, true, false, none⟩ ∧
      (handleVoiceJoin ⟨[(7, [2])], [⟨7, 1, 1, true, false, none⟩], []⟩ 7 2 (some 9) false).2 =
        JoinAction.disconnectLocked ∧
      (handleVoiceJoin ⟨[(7, [2])], [⟨7, 1, 1, true, false, none⟩], []⟩ 7 1 (some 9) false).2 =
        JoinAction.stay :=
  ⟨by decide, by decide,
    (lock_gating ⟨[(7, [2])], [⟨7, 1, 1, true, false, none⟩], []⟩ 7 2 9
      ⟨7, 1, 1, true, false, none⟩ false (by decide) (by decide)).1 rfl (by decide) rfl,
    (lock_gating ⟨[(7, [2])], [⟨7, 1, 1, true, false, none⟩], []⟩ 7 1 9
      ⟨7, 1, 1, true, false, none⟩ false (by decide) (by decide)).2.1 rfl (Or.inl rfl)⟩

end VoiceMaster

namespace VoiceMaster

/-- Claim C2: debounced reap with cancellation. (1) A rejoin to a
non-lobby channel with a Room row cancels the pending deletion timer
keyed by that channel and deletes neither the channel nor the Room row;
(2) when nobody rejoins, the settle check on an empty room schedules
the deletion timer; (3) when that timer fires with the channel still
empty and the external delete succeeding, the external channel and the
Room row are removed in the same invocation; (4) at fire time emptiness
is re-verified: a non-empty channel is left alone together with its
Room row. -/
theorem reap_debounce :
    (∀ (st : World) (c m lobbyId : Nat) (eff : Bool),
      lobbyId ≠ c → (findRoom st.rooms c).isSome = true →
      c ∉ (handleVoiceJoin st c m (some lobbyId) eff).1.pending ∧
      (handleVoiceJoin st c m (some lobbyId) eff).1.channels = st.channels ∧
      (handleVoiceJoin st c m (some lobbyId) eff).1.rooms = st.rooms) ∧
    (∀ (st : World) (c : Nat),
      lookupChannel st.channels c = some [] → (findRoom st.rooms c).isSome = true →
      c ∈ (handleVoiceLeaveSettle st c).pending) ∧
    (∀ (st : World) (c : Nat) (bot : BotEnv),
      lookupChannel st.channels c = some [] → (findRoom st.rooms c).isSome = true →
      bot.botMemberFound = true → bot.botManageChannels = true →
      bot.deleteResult = ApiResult.ok →
      lookupChannel (deletionTimerFire st c bot).channels c = none ∧
      findRoom (deletionTimerFire st c bot).rooms c = none) ∧
    (∀ (st : World) (c : Nat) (bot : BotEnv) (ms : List Nat),
      lookupChannel st.channels c = some ms → ms ≠ [] →
      (deletionTimerFire st c bot).channels = st.channels ∧
      (deletionTimerFire st c bot).rooms = st.rooms) := by
  refine ⟨?_, ?_, ?_, ?_⟩
  · intro st c m lobbyId eff hl hr
    rcases hfind : findRoom st.rooms c with _ | room
    · rw [hfind] at hr; simp at hr
    · rw [handleVoiceJoin_world st c m lobbyId eff room hl hfind]
      exact ⟨cancelRoomDeletion_not_pending st c, rfl, rfl⟩
  · intro st c hch hr
    rcases hfind : findRoom st.rooms c with _ | room
    · rw [hfind] at hr; simp at hr
    · simp [handleVoiceLeaveSettle, hch, hfind]
  · intro st c bot hch hr hb1 hb2 hb3
    have hcf : channelFetchOf st c = ChannelFetch.voice 0 := by
      simp [channelFetchOf, hch]
    have hdec : deletionTimerDecision true (channelFetchOf st c)
        (findRoom st.rooms c).isSome bot = ⟨true, true⟩ := by
      rw [hcf, hr]
      simp [deletionTimerDecision, hb1, hb2, hb3]
    constructor
    · simp only [deletionTimerFire, hdec, applyFireDecision, if_pos]
      exact lookupChannel_filter_self st.channels c
    · simp only [deletionTimerFire, hdec, applyFireDecision, if_pos]
      exact findRoom_filter_self st.rooms c
  · intro st c bot ms hch hne
    have hcf : channelFetchOf st c = ChannelFetch.voice ms.length := by
      simp [channelFetchOf, hch]
    have hlen : ¬ ms.length = 0 := by simpa using hne
    have hdec : deletionTimerDecision true (channelFetchOf st c)
        (findRoom st.rooms c).isSome bot = ⟨false, false⟩ := by
      rw [hcf]
      cases hex : (findRoom st.rooms c).isSome <;>
        simp [deletionTimerDecision, hlen]
    simp [deletionTimerFire, hdec, applyFireDecision]

/-- Witness for C2 at concrete worlds around channel 7 (room owned by
member 1): the rejoin of member 2 cancels the pending timer without
deleting anything; the settle check schedules the timer on the empty
channel; the fired timer removes both the channel and the row; a fired
timer on a repopulated channel removes neither. -/
theorem reap_debounce_witness :
    ((9 : Nat) ≠ 7 ∧
      (findRoom [Room.mk 7 1 1 false false none] 7).isSome = true ∧
      7 ∉ (handleVoiceJoin ⟨[(7, [2])], [⟨7, 1, 1, false, false, none⟩], [7]⟩ 7 2 (some 9) true).1.pending ∧
      (handleVoiceJoin ⟨[(7, [2])], [⟨7, 1, 1, false, false, none⟩], [7]⟩ 7 2 (some 9) true).1.rooms =
        [⟨7, 1, 1, false, false, none⟩]) ∧
    (7 ∈ (handleVoiceLeaveSettle ⟨[(7, [])], [⟨7, 1, 1, false, false, none⟩], []⟩ 7).pending) ∧
    (lookupChannel (deletionTimerFire ⟨[(7, [])], [⟨7, 1, 1, false, false, none⟩], [7]⟩ 7 ⟨true, true, .ok⟩).channels 7 = none ∧
      findRoom (deletionTimerFire ⟨[(7, [])], [⟨7, 1, 1, false, false, none⟩], [7]⟩ 7 ⟨true, true, .ok⟩).rooms 7 = none) ∧
    ((deletionTimerFire ⟨[(7, [2])], [⟨7, 1, 1, false, false, none⟩], [7]⟩ 7 ⟨true, true, .ok⟩).channels = [(7, [2])] ∧
      (deletionTimerFire ⟨[(7, [2])], [⟨7, 1, 1, false, false, none⟩], [7]⟩ 7 ⟨true, true, .ok⟩).rooms =
        [⟨7, 1, 1, false, false, none⟩]) := by
  refine ⟨⟨by decide, by decide, ?_, ?_⟩, ?_, ⟨?_, ?_⟩, ⟨?_, ?_⟩⟩
  · exact (reap_debounce.1 ⟨[(7, [2])], [⟨7, 1, 1, false, false, none⟩], [7]⟩ 7 2 9 true
      (by decide) (by decide)).1
  · exact (reap_debounce.1 ⟨[(7, [2])], [⟨7, 1, 1, false, false, none⟩], [7]⟩ 7 2 9 true
      (by decide) (by decide)).2.2
  · exact reap_debounce.2.1 ⟨[(7, [])], [⟨7, 1, 1, false, false, none⟩], []⟩ 7
      (by decide) (by decide)
  · exact (reap_debounce.2.2.1 ⟨[(7, [])], [⟨7, 1, 1, false, false, none⟩], [7]⟩ 7
      ⟨true, true, .ok⟩ (by decide) (by decide) rfl rfl rfl).1
  · exact (reap_debounce.2.2.1 ⟨[(7, [])], [⟨7, 1, 1, false, false, none⟩], [7]⟩ 7
      ⟨true, true, .ok⟩ (by decide) (by decide) rfl rfl rfl).2
  · exact (reap_debounce.2.2.2 ⟨[(7, [2])], [⟨7, 1, 1, false, false, none⟩], [7]⟩ 7
      ⟨true, true, .ok⟩ [2] (by decide) (by decide)).1
  · exact (reap_debounce.2.2.2 ⟨[(7, [2])], [⟨7, 1, 1, false, false, none⟩], [7]⟩ 7
      ⟨true, true, .ok⟩ [2] (by decide) (by decide)).2

end VoiceMaster

namespace VoiceMaster

/-- Claim C8: reaper deletion-failure policy at fire time on an empty
room: (1) a rate-limited channel delete keeps the Room row (no registry
delete in that invocation); (2) a missing ManageChannels permission,
detected before the delete call, still deletes the Room row while the
channel stays; (3) a delete call failing with Missing Permissions also
still deletes the Room row while the channel stays. -/
theorem reaper_failure_policy :
    (∀ bot : BotEnv, bot.botMemberFound = true → bot.botManageChannels = true →
      bot.deleteResult = ApiResult.rateLimited →
      deletionTimerDecision true (ChannelFetch.voice 0) true bot =
        FireDecision.mk false false) ∧
    (∀ bot : BotEnv, bot.botMemberFound = true → bot.botManageChannels = false →
      deletionTimerDecision true (ChannelFetch.voice 0) true bot =
        FireDecision.mk false true) ∧
    (∀ bot : BotEnv, bot.botMemberFound = true → bot.botManageChannels = true →
      bot.deleteResult = ApiResult.missingPermissions →
      deletionTimerDecision true (ChannelFetch.voice 0) true bot =
        FireDecision.mk false true) := by
  refine ⟨?_, ?_, ?_⟩ <;> intro bot h1 h2
  · intro h3
    simp [deletionTimerDecision, h1, h2, h3]
  · simp [deletionTimerDecision, h1, h2]
  · intro h3
    simp [deletionTimerDecision, h1, h2, h3]

/-- Witness for C8 at concrete bot environments: rate limit keeps the
row; a permission shortfall (either form) deletes the row and not the
channel. -/
theorem reaper_failure_policy_witness :
    deletionTimerDecision true (ChannelFetch.voice 0) true ⟨true, true, .rateLimited⟩ =
      FireDecision.mk false false ∧
    deletionTimerDecision true (ChannelFetch.voice 0) true ⟨true, false, .ok⟩ =
      FireDecision.mk false true ∧
    deletionTimerDecision true (ChannelFetch.voice 0) true ⟨true, true, .missingPermissions⟩ =
      FireDecision.mk false true :=
  ⟨reaper_failure_policy.1 ⟨true, true, .rateLimited⟩ rfl rfl rfl,
    reaper_failure_policy.2.1 ⟨true, false, .ok⟩ rfl rfl,
    reaper_failure_policy.2.2 ⟨true, true, .missingPermissions⟩ rfl rfl rfl⟩

end VoiceMaster

namespace VoiceMaster

/-- Claim C5: Claim precondition. For a caller whose voice channel has
a Room row: when the current owner is among the channel's members the
invocation is rejected with a conflict reply and the row (in particular
its ownerId) is unchanged; when the owner is absent, the row's ownerId
is reassigned to the caller. -/
theorem claim_precondition (ch : VoiceCh) (r : Room) (callerId : Nat) :
    (ch.members.contains r.ownerId = true →
      claimButton true (some ch) (some r) callerId = some (r, Reply.ownerInRoom)) ∧
    (ch.members.contains r.ownerId = false →
      claimButton true (some ch) (some r) callerId =
        some ({ r with ownerId := callerId }, Reply.claimed)) := by
  constructor
  · intro h
    have hm : r.ownerId ∈ ch.members := by simpa using h
    simp [claimButton, h, hm]
  · intro h
    have hm : r.ownerId ∉ ch.members := by simpa using h
    simp [claimButton, h, hm, applyRoomPatch]

/-- Witness for C5 at a concrete room owned by member 1: with the
owner present the claim by member 2 is rejected and the row unchanged;
with the owner absent the row's ownerId becomes 2. -/
theorem claim_precondition_witness :
    ([1, 2].contains (1 : Nat) = true ∧
      claimButton true (some ⟨7, [1, 2], 0, none, []⟩) (some ⟨7, 1, 1, false, false, none⟩) 2 =
        some (⟨7, 1, 1, false, false, none⟩, Reply.ownerInRoom)) ∧
    ([2].contains (1 : Nat) = false ∧
      claimButton true (some ⟨7, [2], 0, none, []⟩) (some ⟨7, 1, 1, false, false, none⟩) 2 =
        some (⟨7, 1, 2, false, false, none⟩, Reply.claimed)) :=
  ⟨⟨by decide,
      (claim_precondition ⟨7, [1, 2], 0, none, []⟩ ⟨7, 1, 1, false, false, none⟩ 2).1 (by decide)⟩,
    ⟨by decide,
      (claim_precondition ⟨7, [2], 0, none, []⟩ ⟨7, 1, 1, false, false, none⟩ 2).2 (by decide)⟩⟩

/-- Claim C6 counterexample: decreasing the limit from 1 to 0 in a room
whose row stores limit 1 sends an empty update, so the row keeps the
stale stored limit 1 instead of storing the limit as absent; the
zero-as-absent conjunct of the claim is false on the code. -/
theorem limit_zero_not_absent_cex : ¬ decreaseStoresAbsentOnZero := by
  intro h
  have hx := h ⟨7, [1], 1, none, []⟩ ⟨7, 1, 1, false, false, some 1⟩ 1
    ⟨⟨7, [1], 0, none, []⟩, ⟨7, 1, 1, false, false, some 1⟩, .decreased 0⟩
    (by decide) (by decide)
  exact absurd hx (by decide)

/-- Claim C6 amended: Increase-limit invoked at a channel limit of 99
is rejected with the maximum-reached reply and nothing changes;
Decrease-limit invoked at 0 is rejected with the minimum-reached reply;
and when a decrease makes the limit 0 (unlimited), the update object
omits the limit field (0 is never written), so the Room row keeps
whatever limit value it already stored rather than storing it as
absent. -/
theorem limit_boundaries (ch : VoiceCh) (r : Room) (callerId : Nat)
    (hown : r.ownerId = callerId) :
    (99 ≤ ch.userLimit →
      increaseButton true (some ch) (some r) callerId = some ⟨ch, r, Reply.maxReached⟩) ∧
    (ch.userLimit = 0 →
      decreaseButton true (some ch) (some r) callerId = some ⟨ch, r, Reply.minReached⟩) ∧
    (ch.userLimit = 1 →
      decreaseButton true (some ch) (some r) callerId =
        some ⟨{ ch with userLimit := 0 }, r, Reply.decreased 0⟩) := by
  have hb : (r.ownerId != callerId) = false := by simp [hown]
  refine ⟨?_, ?_, ?_⟩ <;> intro h
  · simp [increaseButton, hb, h]
  · simp [decreaseButton, hb, h]
  · simp [decreaseButton, hb, h, applyRoomPatch]

/-- Witness for the amended C6 at a concrete channel and room: at 99
the increase is rejected; at 0 the decrease is rejected; at 1 the
decrease sets the channel to 0 while the row keeps its stored limit. -/
theorem limit_boundaries_witness :
    (Room.mk 7 1 1 false false (some 1)).ownerId = 1 ∧
      increaseButton true (some ⟨7, [1], 99, none, []⟩) (some ⟨7, 1, 1, false, false, some 1⟩) 1 =
        some ⟨⟨7, [1], 99, none, []⟩, ⟨7, 1, 1, false, false, some 1⟩, Reply.maxReached⟩ ∧
      decreaseButton true (some ⟨7, [1], 0, none, []⟩) (some ⟨7, 1, 1, false, false, some 1⟩) 1 =
        some ⟨⟨7, [1], 0, none, []⟩, ⟨7, 1, 1, false, false, some 1⟩, Reply.minReached⟩ ∧
      decreaseButton true (some ⟨7, [1], 1, none, []⟩) (some ⟨7, 1, 1, false, false, some 1⟩) 1 =
        some ⟨⟨7, [1], 0, none, []⟩, ⟨7, 1, 1, false, false, some 1⟩, Reply.decreased 0⟩ :=
  ⟨rfl,
    (limit_boundaries ⟨7, [1], 99, none, []⟩ ⟨7, 1, 1, false, false, some 1⟩ 1 rfl).1 (by decide),
    (limit_boundaries ⟨7, [1], 0, none, []⟩ ⟨7, 1, 1, false, false, some 1⟩ 1 rfl).2.1 rfl,
    (limit_boundaries ⟨7, [1], 1, none, []⟩ ⟨7, 1, 1, false, false, some 1⟩ 1 rfl).2.2 rfl⟩

end VoiceMaster

namespace VoiceMaster

/-- Claim C4 counterexample: `vcreject` invoked by caller 2 in channel
7, whose Room row is owned by member 1, still applies the deny-Connect
overwrite for the target (the channel is mutated, not rejected): the
command never consults the Room row, so the claim as stated is false. -/
theorem owner_gate_cex : ¬ ownerGateClaim := by
  intro h
  have hx := h ⟨7, [2], 0, none, []⟩ ⟨7, 1, 1, false, false, none⟩ 2 3 none
    ⟨⟨7, [2], 0, none, [(3, false)]⟩, false, .userRejected⟩ rfl (by decide) (by decide)
  exact absurd hx (by decide)

/-- Claim C4 amended: the button-based control operations (lock,
increase-limit, decrease-limit — embedded here; unlock, unhide and the
disconnect menu carry the identical guard) reject a caller whose id
differs from the Room row's ownerId without mutating the channel or the
row; but the `vcreject` text command performs no ownership check at
all: for every caller it edits the target's Connect overwrite to deny
and disconnects a present target, guarded only by the platform-level
ManageChannels permission requirement. -/
theorem owner_gate (ch : VoiceCh) (r : Room) (callerId target : Nat) (tvc : Option Nat) :
    (r.ownerId ≠ callerId →
      lockButton true (some ch) (some r) callerId = some ⟨ch, r, Reply.notOwner⟩) ∧
    (r.ownerId ≠ callerId →
      increaseButton true (some ch) (some r) callerId = some ⟨ch, r, Reply.notOwner⟩) ∧
    (r.ownerId ≠ callerId →
      decreaseButton true (some ch) (some r) callerId = some ⟨ch, r, Reply.notOwner⟩) ∧
    (vcreject true (some ch) (some target) tvc true =
      some ⟨{ ch with memberConnect := setMemberConnect ch.memberConnect target false },
        tvc == some ch.id, Reply.userRejected⟩) := by
  refine ⟨?_, ?_, ?_, rfl⟩ <;> intro hne
  · have hb : (r.ownerId != callerId) = true := bne_iff_ne.mpr hne
    simp [lockButton, hb]
  · have hb : (r.ownerId != callerId) = true := bne_iff_ne.mpr hne
    simp [increaseButton, hb]
  · have hb : (r.ownerId != callerId) = true := bne_iff_ne.mpr hne
    simp [decreaseButton, hb]

/-- Witness for the amended C4: in channel 7 with the room owned by
member 1, the non-owner caller 2 is rejected by the lock button with
nothing mutated, while `vcreject` run by the same non-owner denies the
target's Connect overwrite anyway. -/
theorem owner_gate_witness :
    (Room.mk 7 1 1 false false none).ownerId ≠ 2 ∧
      lockButton true (some ⟨7, [2], 0, none, []⟩) (some ⟨7, 1, 1, false, false, none⟩) 2 =
        some ⟨⟨7, [2], 0, none, []⟩, ⟨7, 1, 1, false, false, none⟩, Reply.notOwner⟩ ∧
      vcreject true (some ⟨7, [2], 0, none, []⟩) (some 3) none true =
        some ⟨⟨7, [2], 0, none, [(3, false)]⟩, false, Reply.userRejected⟩ :=
  ⟨by decide,
    (owner_gate ⟨7, [2], 0, none, []⟩ ⟨7, 1, 1, false, false, none⟩ 2 3 none).1 (by decide),
    (owner_gate ⟨7, [2], 0, none, []⟩ ⟨7, 1, 1, false, false, none⟩ 2 3 none).2.2.2⟩

/-- Claim C9: the startup sweep over all Room rows deletes every row
whose guild or channel no longer resolves or whose channel is not a
voice channel; for a room empty at startup (with the bot member
resolving, ManageChannels held and the delete call succeeding) it
deletes the external channel and the row; it leaves every room with at
least one present member untouched — neither its row nor its channel is
modified — and each row's outcome in the sweep depends only on that
row's own environment, so populated rooms survive unchanged in the
sweep output. -/
theorem cleanup_rooms :
    (∀ e : SweepEnv,
      e.guildExists = false ∨ e.channelFetch = ChannelFetch.missing ∨
        e.channelFetch = ChannelFetch.notVoice →
      (cleanupVoiceMasterRoom e).rowDeleted = true ∧
        (cleanupVoiceMasterRoom e).channelDeleted = false) ∧
    (∀ e : SweepEnv,
      e.guildExists = true → e.channelFetch = ChannelFetch.voice 0 →
      e.botMemberFound = true → e.botManageChannels = true → e.deleteOk = true →
      cleanupVoiceMasterRoom e = CleanupOut.mk true true) ∧
    (∀ (e : SweepEnv) (n : Nat),
      e.guildExists = true → e.channelFetch = ChannelFetch.voice n → n ≠ 0 →
      cleanupVoiceMasterRoom e = CleanupOut.mk false false) ∧
    (∀ (rooms : List (Room × SweepEnv)) (p : Room × SweepEnv) (n : Nat),
      p ∈ rooms → p.2.guildExists = true → p.2.channelFetch = ChannelFetch.voice n →
      n ≠ 0 → (p.1, CleanupOut.mk false false) ∈ cleanupVoiceMasterRooms rooms) := by
  refine ⟨?_, ?_, ?_, ?_⟩
  · intro e h
    rcases h with h | h | h <;>
      cases hg : e.guildExists <;> simp [cleanupVoiceMasterRoom, h, hg]
  · intro e h1 h2 h3 h4 h5
    simp [cleanupVoiceMasterRoom, h1, h2, h3, h4, h5]
  · intro e n h1 h2 hn
    simp [cleanupVoiceMasterRoom, h1, h2, hn]
  · intro rooms p n hp h1 h2 hn
    have hout : cleanupVoiceMasterRoom p.2 = CleanupOut.mk false false := by
      simp [cleanupVoiceMasterRoom, h1, h2, hn]
    have hmem : (p.1, cleanupVoiceMasterRoom p.2) ∈ cleanupVoiceMasterRooms rooms := by
      simp only [cleanupVoiceMasterRooms, List.mem_map]
      exact ⟨p, hp, rfl⟩
    rw [hout] at hmem
    exact hmem

/-- Witness for C9 at concrete environments: a row whose guild is gone
is deleted; an empty room has channel and row deleted; a populated room
is untouched and survives a singleton sweep. -/
theorem cleanup_rooms_witness :
    ((cleanupVoiceMasterRoom ⟨false, .voice 3, true, true, true, false⟩).rowDeleted = true ∧
      (cleanupVoiceMasterRoom ⟨false, .voice 3, true, true, true, false⟩).channelDeleted = false) ∧
    cleanupVoiceMasterRoom ⟨true, .voice 0, true, true, true, false⟩ = CleanupOut.mk true true ∧
    cleanupVoiceMasterRoom ⟨true, .voice 2, true, true, true, false⟩ = CleanupOut.mk false false ∧
    (Room.mk 7 1 1 false false none, CleanupOut.mk false false) ∈
      cleanupVoiceMasterRooms [(⟨7, 1, 1, false, false, none⟩, ⟨true, .voice 2, true, true, true, false⟩)] :=
  ⟨cleanup_rooms.1 ⟨false, .voice 3, true, true, true, false⟩ (Or.inl rfl),
    cleanup_rooms.2.1 ⟨true, .voice 0, true, true, true, false⟩ rfl rfl rfl rfl rfl,
    cleanup_rooms.2.2.1 ⟨true, .voice 2, true, true, true, false⟩ 2 rfl rfl (by decide),
    cleanup_rooms.2.2.2 [(⟨7, 1, 1, false, false, none⟩, ⟨true, .voice 2, true, true, true, false⟩)]
      (⟨7, 1, 1, false, false, none⟩, ⟨true, .voice 2, true, true, true, false⟩) 2
      (by simp) rfl rfl (by decide)⟩

end VoiceMaster
